import Mathlib

/-!
Shallow embedding of `ccfeplot/ccfeplot.py` (class `CcfePlot`), the single
component of the repository.  Python dictionaries are embedded as ordered
association lists (Python dicts preserve insertion order), Python values as
the inductive `Val`, failure (raised exceptions) as `Except Err`, and the
calls made to the external matplotlib renderer are recorded in `PlotCall`
records rather than re-implemented.
-/

namespace Ccfe

/-- Embedded Python values, as far as the wrapper manipulates them.
`flt m e` stands for the inert float literal `m * 10 ^ (-e)` (the wrapper
stores such literals, e.g. `framealpha=0.8`, but never computes with them). -/
inductive Val where
  | str : String → Val
  | num : Int → Val
  | flt : Int → Nat → Val
  | bool : Bool → Val
  | list : List Val → Val
  | tup : List Val → Val
  | dict : List (String × Val) → Val
  | pynone : Val

/-- Lookup in an insertion-ordered dictionary (`d[k]`, as an `Option`). -/
def odGet (d : List (String × Val)) (k : String) : Option Val :=
  (d.find? (fun p => p.1 = k)).map Prod.snd

/-- `k in d` for a Python dict. -/
def odHas (d : List (String × Val)) (k : String) : Bool :=
  d.any (fun p => p.1 = k)

/-- `d[k] = v` for a Python dict: updates the value in place when the key is
present (insertion order is kept), appends the pair otherwise. -/
def odSet (d : List (String × Val)) (k : String) (v : Val) : List (String × Val) :=
  if odHas d k then d.map (fun p => if p.1 = k then (k, v) else p)
  else d ++ [(k, v)]

/-- `d.pop(k, None)`: removes every binding of `k` (a Python dict has at most
one). -/
def odPop (d : List (String × Val)) (k : String) : List (String × Val) :=
  d.filter (fun p => p.1 ≠ k)

/-- Python truthiness (`bool(v)`), used by `if self._other_defaults['showlegend']`. -/
def pyTruthy : Val → Bool
  | .str s => s != ""
  | .num n => n != 0
  | .flt m _ => m != 0
  | .bool b => b
  | .list l => !l.isEmpty
  | .tup l => !l.isEmpty
  | .dict d => !d.isEmpty
  | .pynone => false

/-- Python sequence indexing with negative wrap-around (`l[i]` on a list). -/
def pyIndexList (l : List Val) (i : Int) : Option Val :=
  if 0 ≤ i then l.get? i.toNat
  else if -(l.length : Int) ≤ i then l.get? (i + l.length).toNat
  else none

/-- Python subscription `v[k]`; `none` models a raised exception
(`KeyError` / `IndexError` / `TypeError`), which the callers in `add_lines`
wrap in a bare `try`/`except`. -/
def Val.index : Val → Val → Option Val
  | .dict d, .str k => odGet d k
  | .list l, .num i => pyIndexList l i
  | .tup l, .num i => pyIndexList l i
  | .str s, .num i => pyIndexList (s.data.map (fun ch => Val.str (String.singleton ch))) i
  | _, _ => none

/-- `len(v)` for the sized Python values. -/
def pyLen : Val → Option Nat
  | .list l => some l.length
  | .tup l => some l.length
  | .str s => some s.length
  | .dict d => some d.length
  | _ => none

/-- `v[:]` (slice copy), used by `add_lines` in array mode on `x[ind][:]`. -/
def pySliceCopy : Val → Option Val
  | .list l => some (.list l)
  | .tup l => some (.tup l)
  | .str s => some (.str s)
  | _ => none

/-- `for key in v`: the list of iteration keys.  Iterating a dict yields its
keys in insertion order; iterating a list/tuple yields the elements; `none`
models the `TypeError` raised on non-iterables. -/
def pyIterKeys : Val → Option (List Val)
  | .dict d => some (d.map (fun p => Val.str p.1))
  | .list l => some l
  | .tup l => some l
  | .str s => some (s.data.map (fun ch => Val.str (String.singleton ch)))
  | _ => none

/-- Exception classes raised by the wrapper (source: `raise NotImplementedError`,
`raise ValueError`, numpy `IndexError`, attribute/key/type errors from the
Python runtime). -/
inductive Err where
  | notImplementedError
  | valueError
  | indexError
  | attributeError
  | keyError
  | typeError
  deriving DecidableEq, Repr

/-!  ## Class-level tables (source lines 28-74)  -/

/-- `CcfePlot._figure_defaults`.  `dpi` holds the ambient
`mpl.rcParams['figure.dpi']`, whose stock value is 100; the wrapper never
computes with it. -/
def figure_defaults : List (String × Val) :=
  [("figsize", .pynone), ("dpi", .num 100),
   ("sharex", .bool false), ("sharey", .bool false)]

/-- `CcfePlot._legend_defaults` (an `OrderedDict`; keyword order preserved). -/
def legend_defaults : List (String × Val) :=
  [("loc", .str "best"), ("fancybox", .bool true), ("framealpha", .flt 8 1),
   ("numpoints", .num 1), ("ncol", .num 1)]

/-- `CcfePlot._plot_defaults`. -/
def plot_defaults : List (String × Val) :=
  [("linestyle", .str "-")]

/-- `CcfePlot._other_defaults` (class level). -/
def other_defaults_cls : List (String × Val) :=
  [("showlegend", .bool true)]

/-- `CcfePlot._alias_dict` (source lines 48-51). -/
def alias_dict : List (String × String) :=
  [("lw", "linewidth"), ("ls", "linestyle"), ("mfc", "markerfacecolor"),
   ("mew", "markeredgewidth"), ("mec", "markeredgecolor"), ("ms", "markersize"),
   ("mev", "markevery"), ("c", "color"), ("fs", "fontsize")]

/-- `CcfePlot._line_attributes` (source lines 54-56). -/
def line_attributes : List String :=
  ["label", "linewidth", "linestyle", "marker", "markerfacecolor",
   "markeredgewidth", "markersize", "markeredgecolor", "markevery",
   "alpha", "color"]

/-- `CcfePlot._legend_attributes` (source lines 58-59). -/
def legend_attributes : List String :=
  ["fancybox", "loc", "framealpha", "numpoints", "ncol", "markerscale",
   "mode", "bbox_to_anchor"]

/-- `CcfePlot._uniqueparams` (source lines 62-63). -/
def uniqueparams : List String :=
  ["color", "label", "marker", "linestyle", "colorcycle"]

/-- Attribute names of a plain Python function object.  `plt.plot`,
`plt.subplots` and `plt.legend` are plain pyplot module functions, so a check
`hasattr(plt.plot, key)` (source lines 146-150 and 241) is true exactly for
the standard function/object attribute names below — and in particular false
for every plot styling option name such as `color`, `lw` or `linestyle`. -/
def pyFunctionAttrs : List String :=
  ["__annotations__", "__call__", "__class__", "__closure__", "__code__",
   "__defaults__", "__delattr__", "__dict__", "__dir__", "__doc__", "__eq__",
   "__format__", "__ge__", "__get__", "__getattribute__", "__globals__",
   "__gt__", "__hash__", "__init__", "__init_subclass__", "__kwdefaults__",
   "__le__", "__lt__", "__module__", "__name__", "__ne__", "__new__",
   "__qualname__", "__reduce__", "__reduce_ex__", "__repr__", "__setattr__",
   "__sizeof__", "__str__", "__subclasshook__", "__wrapped__"]

/-- `hasattr(plt.plot, key)`. -/
def hasattr_plt_plot (key : String) : Bool := pyFunctionAttrs.contains key

/-- `hasattr(plt.subplots, key)`. -/
def hasattr_plt_subplots (key : String) : Bool := pyFunctionAttrs.contains key

/-- `hasattr(plt.legend, key)`. -/
def hasattr_plt_legend (key : String) : Bool := pyFunctionAttrs.contains key

/-!  ## Session state  -/

/-- A surface (axes) target as accepted by `get_axis` (source lines 169-177):
an existing `mpl.axes.Axes` handle (identified by its fixed position in the
session's grid, since the grid is created once and never resized), a
`(row, column)` list/tuple of Python ints, a bare int, or a value of any
other type (which hits the final `else: raise ValueError`). -/
inductive AxTarget where
  | axes : Nat × Nat → AxTarget
  | pair : Int × Int → AxTarget
  | int : Int → AxTarget
  | other : AxTarget
  deriving DecidableEq, Repr

/-- A key of the `self._legends` ordered dict: `update_legends` stores under
`(i, j)` index tuples, while `plot` passes the Axes object itself to
`_update_legend`, so the raw Axes handle becomes the key.  A tuple and an
Axes object are never equal, and two Axes handles are equal exactly when
they are the same grid slot. -/
inductive LegKey where
  | idx : Int × Int → LegKey
  | axes : Nat × Nat → LegKey
  deriving DecidableEq, Repr

/-- `self._legends[k] = leg` (`OrderedDict` assignment: in-place update if the
key exists, append otherwise).  The stored value is the legend handle:
`none` embeds Python `None` (legends disabled), `some settings` embeds the
handle returned by `ax.legend(**self._legend_settings)`, identified by the
option set it was built from. -/
def legSet (d : List (LegKey × Option (List (String × Val)))) (k : LegKey)
    (v : Option (List (String × Val))) : List (LegKey × Option (List (String × Val))) :=
  if d.any (fun p => p.1 = k) then d.map (fun p => if p.1 = k then (k, v) else p)
  else d ++ [(k, v)]

/-- The mutable state of a `CcfePlot` instance.  `subplots` mirrors the shape
of the `self._axes` array created by `plt.subplots(nrows, ncolumns,
squeeze=False, ...)`; `kwargsAttr` models the `self.kwargs` attribute, which
`__init__` never assigns (the assignment at source line 164 is commented
out), hence `none` on every constructed session. -/
structure State where
  subplots : Nat × Nat
  default_ax : Nat × Nat
  legends : List (LegKey × Option (List (String × Val)))
  figure_settings : List (String × Val)
  legend_settings : List (String × Val)
  plot_settings_default : List (String × Val)
  other_defaults : List (String × Val)
  colorcycle : Val
  kwargsAttr : Option (List (String × Val))

/-- Numpy 1-axis integer indexing into an axis of length `n`: in-range and
negative (wrap-around) indices resolve, anything else raises `IndexError`. -/
def npIdx (n : Nat) (i : Int) : Except Err Nat :=
  if 0 ≤ i ∧ i < n then .ok i.toNat
  else if -(n : Int) ≤ i ∧ i < 0 then .ok (i + n).toNat
  else .error .indexError

/-- `CcfePlot.get_axis` (source lines 169-177).  An Axes handle is returned
as-is; a `(row, column)` pair is resolved through `self._axes[ax[0]][ax[1]]`
(numpy indexing, hence the negative wrap-around); a bare int raises
`NotImplementedError`; any other value raises `ValueError`. -/
def get_axis (s : State) (ax : AxTarget) : Except Err (Nat × Nat) :=
  match ax with
  | .axes p => .ok p
  | .pair (r, c) =>
    match npIdx s.subplots.1 r with
    | .error e => .error e
    | .ok r' =>
      match npIdx s.subplots.2 c with
      | .error e => .error e
      | .ok c' => .ok (r', c')
  | .int _ => .error .notImplementedError
  | .other => .error .valueError

/-- `CcfePlot.get_axis_index` (source lines 179-184).  Scans the grid and,
when the handle is found, returns `ax` itself (source line 183 returns `ax`,
not the `(i, j)` index); `None` otherwise.  Its result is computed but never
used by `plot`. -/
def get_axis_index (s : State) (ax : Nat × Nat) : Option (Nat × Nat) :=
  if ax.1 < s.subplots.1 ∧ ax.2 < s.subplots.2 then some ax else none

/-- `CcfePlot.set_default_axis` (source lines 186-196): rejects a bare int
with `NotImplementedError`, otherwise resolves the target via `get_axis`,
stores it as `self.default_ax` (and makes it current via `plt.sca`, a pure
renderer effect) and returns it. -/
def set_default_axis (s : State) (indices : AxTarget) : Except Err (State × (Nat × Nat)) :=
  match indices with
  | .int _ => .error .notImplementedError
  | _ => (get_axis s indices).map (fun ax => ({ s with default_ax := ax }, ax))

/-- The legend handle `_update_legend` produces on state `s`:
`ax.legend(**self._legend_settings)` when `self._other_defaults['showlegend']`
is truthy, Python `None` otherwise.  The `KeyError` case (`'showlegend'`
missing) is handled by the caller `update_legend`. -/
def legval (s : State) : Option (List (String × Val)) :=
  match odGet s.other_defaults "showlegend" with
  | some v => if pyTruthy v then some s.legend_settings else none
  | none => none

/-- `CcfePlot._update_legend` (source lines 198-206): resolves the target,
builds the legend from the session's legend settings when `showlegend` is
truthy (warnings silenced, `leg.draggable` is a renderer effect), and stores
the handle in `self._legends` under the RAW argument (`self._legends[indices]
= leg`): an `(i, j)` tuple from `update_legends`, or the Axes object itself
when called from `plot`. -/
def update_legend (s : State) (indices : AxTarget) :
    Except Err (State × Option (List (String × Val))) :=
  match get_axis s indices with
  | .error e => .error e
  | .ok _ax =>
    match odGet s.other_defaults "showlegend" with
    | none => .error .keyError
    | some _v =>
      let leg := legval s
      let key : LegKey := match indices with
        | .axes p => .axes p
        | .pair rc => .idx rc
        | _ => .idx (0, 0)
      .ok ({ s with legends := legSet s.legends key leg }, leg)

/-- The `(i, j)` traversal order of `update_legends`: for `i` in
`np.arange(rows)`, for `j` in `np.arange(cols)` — i.e. row-major. -/
def rowMajor (rows cols : Nat) : List (Nat × Nat) :=
  (List.range rows).flatMap (fun i => (List.range cols).map (fun j => (i, j)))

/-- The successive `self._update_legend((i, j))` calls of the
`update_legends` loop, threading the state. -/
def legends_fold : State → List (Nat × Nat) → Except Err State
  | s, [] => .ok s
  | s, p :: rest =>
    match update_legend s (.pair ((p.1 : Int), (p.2 : Int))) with
    | .error e => .error e
    | .ok (s', _leg) => legends_fold s' rest

/-- `CcfePlot.update_legends` (source lines 208-213): applies
`_update_legend((i, j))` to every grid index in row-major order, then returns
`self._legends`. -/
def update_legends (s : State) :
    Except Err (State × List (LegKey × Option (List (String × Val)))) :=
  match legends_fold s (rowMajor s.subplots.1 s.subplots.2) with
  | .error e => .error e
  | .ok s' => .ok (s', s'.legends)

/-!  ## plot  -/

/-- One invocation of the plot machinery, as observed at the two boundaries
the source exposes: `kwargs` is the keyword-argument dict the `plot` method
itself received, and `settings` is the merged option dict the renderer's
line-draw primitive `ax.plot(x, *args, **plot_settings)` receives. -/
structure PlotCall where
  ax : Nat × Nat
  x : Val
  args : List Val
  kwargs : List (String × Val)
  settings : List (String × Val)

/-- The merge at source lines 238-242: start from a copy of
`self._plot_settings_default` and, for each per-call keyword argument, store
it only when `hasattr(plt.plot, key)` holds. -/
def merge_plot_kwargs (defaults : List (String × Val))
    (kwargs : List (String × Val)) : List (String × Val) :=
  kwargs.foldl (fun acc kv => if hasattr_plt_plot kv.1 then odSet acc kv.1 kv.2 else acc)
    defaults

/-- The `ax` argument of `plot`: the default is the string sentinel
`'default'`; otherwise a surface target as in `get_axis`. -/
inductive PlotAxArg where
  | default : PlotAxArg
  | target : AxTarget → PlotAxArg
  deriving DecidableEq, Repr

/-- `CcfePlot.plot` (source lines 215-249).  `ax='default'` uses
`self.default_ax`; a tuple/list/int target goes through `set_default_axis`
(a bare int therefore raises `NotImplementedError`); an Axes handle is used
directly.  A target of any other type would fall through and crash at
`ax.ticklabel_format` with `AttributeError`.  `get_axis_index` is evaluated
and discarded (source line 234); `ticklabel_format`, the draw itself and the
interactive-mode `redraw` are renderer effects; the draw is recorded as a
`PlotCall`.  The legend refresh passes the Axes OBJECT to `_update_legend`. -/
def plot (s : State) (x : Val) (args : List Val) (axArg : PlotAxArg)
    (kwargs : List (String × Val)) : Except Err (State × PlotCall) :=
  let resolved : Except Err (State × (Nat × Nat)) :=
    match axArg with
    | .default => .ok (s, s.default_ax)
    | .target (.axes p) => .ok (s, p)
    | .target .other => .error .attributeError
    | .target t => set_default_axis s t
  match resolved with
  | .error e => .error e
  | .ok (s1, ax) =>
    let _axIndex := get_axis_index s1 ax
    let plot_settings := merge_plot_kwargs s1.plot_settings_default kwargs
    let call : PlotCall :=
      { ax := ax, x := x, args := args, kwargs := kwargs, settings := plot_settings }
    match update_legend s1 (.axes ax) with
    | .error e => .error e
    | .ok (s2, _leg) => .ok (s2, call)

/-!  ## Construction  -/

/-- `CcfePlot.__init__` (source lines 76-167).  Field initialisation
(lines 133-140) is local to the new object; any extra positional argument
raises `NotImplementedError` (lines 142-143), discarding the object, so the
error carries no state.  Each keyword argument is routed by `hasattr`
probing (lines 145-153; note line 149 stores legend-recognised keys into
`_figure_settings` as the source does); `plt.subplots` is the renderer —
it rejects a non-positive grid with `ValueError` and otherwise yields the
`nrows × ncolumns` axes array; line 158 records the grid shape in
`_figure_settings['subplots']`; finally `set_default_axis([0, 0])`. -/
def construct (nrows ncolumns : Nat) (sharex sharey : Bool) (args : List Val)
    (kwargs : List (String × Val)) : Except Err State :=
  match args with
  | _ :: _ => .error .notImplementedError
  | [] =>
    let (figs, plotd, other) := kwargs.foldl
      (fun (acc : List (String × Val) × List (String × Val) × List (String × Val)) kv =>
        if hasattr_plt_subplots kv.1 then (odSet acc.1 kv.1 kv.2, acc.2.1, acc.2.2)
        else if hasattr_plt_legend kv.1 then (odSet acc.1 kv.1 kv.2, acc.2.1, acc.2.2)
        else if hasattr_plt_plot kv.1 then (acc.1, odSet acc.2.1 kv.1 kv.2, acc.2.2)
        else if odHas acc.2.2 kv.1 then (acc.1, acc.2.1, odSet acc.2.2 kv.1 kv.2)
        else acc)
      (figure_defaults, plot_defaults, other_defaults_cls)
    let _sx := sharex  -- the sharex/sharey parameters are accepted but never stored
    let _sy := sharey
    if nrows = 0 ∨ ncolumns = 0 then Except.error Err.valueError
    else
      let s0 : State :=
        { subplots := (nrows, ncolumns)
          default_ax := (0, 0)
          legends := []
          figure_settings := odSet figs "subplots" (.tup [.num nrows, .num ncolumns])
          legend_settings := legend_defaults
          plot_settings_default := plotd
          other_defaults := other
          colorcycle := .list []
          kwargsAttr := none }
      match set_default_axis s0 (.pair (0, 0)) with
      | .error e => .error e
      | .ok (s1, _ax) => .ok s1

/-- The session `construct` yields for an `nrows × ncolumns` grid with no
extra arguments (the common case; proved below in `construct_eq`). -/
def initState (nrows ncolumns : Nat) : State where
  subplots := (nrows, ncolumns)
  default_ax := (0, 0)
  legends := []
  figure_settings := odSet figure_defaults "subplots" (.tup [.num nrows, .num ncolumns])
  legend_settings := legend_defaults
  plot_settings_default := plot_defaults
  other_defaults := other_defaults_cls
  colorcycle := .list []
  kwargsAttr := none

/-!  ## autoscale and the `self.kwargs` attribute  -/

/-- `CcfePlot.get_axes` (source lines 364-366): `return self.kwargs['ax']`.
Since `__init__` never assigns `self.kwargs`, the attribute access raises
`AttributeError` on every constructed session. -/
def get_axes (s : State) : Except Err Val :=
  match s.kwargsAttr with
  | none => .error .attributeError
  | some kw =>
    match odGet kw "ax" with
    | some v => .ok v
    | none => .error .keyError

/-- `CcfePlot.autoscale` (source lines 329-349): `ax = self.get_axes()` (an
`AttributeError` when `self.kwargs` was never set), then the renderer-side
`ax.autoscale(enable=..., axis=..., tight=...)`, then the stored `xlim` /
`ylim` entries are popped from `self.kwargs` for the selected axes, and
`self.redraw()` (a display effect). -/
def autoscale (s : State) (enable : Option Bool) (axis : String) (tight : Option Bool) :
    Except Err State :=
  match s.kwargsAttr with
  | none => .error .attributeError
  | some kw =>
    match odGet kw "ax" with
    | none => .error .keyError
    | some _ax =>
      let _e := enable  -- forwarded to the renderer only
      let _t := tight
      let kw := if odHas kw "xlim" ∧ (axis = "x" ∨ axis = "both") then odPop kw "xlim" else kw
      let kw := if odHas kw "ylim" ∧ (axis = "y" ∨ axis = "both") then odPop kw "ylim" else kw
      .ok { s with kwargsAttr := some kw }

/-- `CcfePlot._delete_uniqueparams` (source lines 409-418): stashes
`self.kwargs['colorcycle']` if present, then pops every unique-per-call
parameter from `self.kwargs`.  Like the other leftover `self.kwargs` users it
raises `AttributeError` on any constructed session (`self.kwargs` is never
assigned); it is also never called by the class itself. -/
def delete_uniqueparams (s : State) : Except Err State :=
  match s.kwargsAttr with
  | none => .error .attributeError
  | some kw =>
    let cc := match odGet kw "colorcycle" with
      | some v => v
      | none => s.colorcycle
    .ok { s with colorcycle := cc, kwargsAttr := some (uniqueparams.foldl odPop kw) }

/-!  ## add_lines  -/

/-- The dict-mode loop body of `add_lines` (source lines 295-307): for each
iteration key, every keyword argument is looked up with the key inside a
bare `try`/`except` (per-series value when the subscription succeeds, the
whole value otherwise), likewise `x`; then `self.plot(x_loop, y[key],
**loop_kwargs)` — the `y[key]` subscription sits outside any `try`, so its
failure propagates. -/
def dict_loop (x y : Val) (kwargs : List (String × Val)) :
    State → List Val → Except Err (State × List PlotCall)
  | s, [] => .ok (s, [])
  | s, key :: rest =>
    let loop_kwargs := kwargs.map (fun p => (p.1, (p.2.index key).getD p.2))
    let x_loop := (x.index key).getD x
    match y.index key with
    | none => .error .typeError
    | some yk =>
      match plot s x_loop [yk] .default loop_kwargs with
      | .error e => .error e
      | .ok (s', call) =>
        match dict_loop x y kwargs s' rest with
        | .error e => .error e
        | .ok (s'', calls) => .ok (s'', call :: calls)

/-- `isinstance(v, (string23, tuple))`: parameters of these types are never
iterated through in array mode (source line 314). -/
def isStrOrTuple : Val → Bool
  | .str _ => true
  | .tup _ => true
  | _ => false

/-- The array-mode loop body of `add_lines` (source lines 309-325): for
`ind` in `range(len(y))`, string/tuple parameters are broadcast, others are
indexed by `ind` inside a bare `try`/`except`; `x_loop = x[ind][:]` inside a
bare `try`/`except`; then `self.plot(x_loop, y[ind], **loop_kwargs)` with
`y[ind]` outside any `try`. -/
def array_loop (x y : Val) (kwargs : List (String × Val)) :
    State → List Nat → Except Err (State × List PlotCall)
  | s, [] => .ok (s, [])
  | s, ind :: rest =>
    let loop_kwargs := kwargs.map (fun p =>
      (p.1, if isStrOrTuple p.2 then p.2 else (p.2.index (.num ind)).getD p.2))
    let x_loop := ((x.index (.num ind)).bind pySliceCopy).getD x
    match y.index (.num ind) with
    | none => .error .keyError
    | some yk =>
      match plot s x_loop [yk] .default loop_kwargs with
      | .error e => .error e
      | .ok (s', call) =>
        match array_loop x y kwargs s' rest with
        | .error e => .error e
        | .ok (s'', calls) => .ok (s'', call :: calls)

/-- Python `str.lower()`.  The mode strings this is compared against are
ASCII, for which lowering is exactly per-character ASCII lowercasing. -/
def pyLower (s : String) : String := String.mk (s.data.map Char.toLower)

/-- `CcfePlot.add_lines` (source lines 274-327).  `mode.lower()` selects dict
or array iteration; any other mode string prints
`'Error! Incorrect mode specification. Ignoring method call'` and performs
nothing.  The result carries the final state, the issued plot calls in
order, and the diagnostic lines printed. -/
def add_lines (s : State) (x y : Val) (mode : String) (kwargs : List (String × Val)) :
    Except Err (State × List PlotCall × List String) :=
  if pyLower mode = "dict" then
    match pyIterKeys y with
    | some keys => (dict_loop x y kwargs s keys).map (fun r => (r.1, r.2, []))
    | none => .error .typeError
  else if pyLower mode = "array" then
    match pyLen y with
    | some n => (array_loop x y kwargs s (List.range n)).map (fun r => (r.1, r.2, []))
    | none => .error .typeError
  else
    .ok (s, [], ["Error! Incorrect mode specification. Ignoring method call"])

end Ccfe

namespace Ccfe

/-!  ## Helper lemmas  -/

theorem odHas_iff_isSome (d : List (String × Val)) (k : String) :
    odHas d k = true ↔ (odGet d k).isSome := by
  simp [odHas, odGet, List.any_eq_true, List.find?_isSome]

theorem odGet_cons_of_ne (p : String × Val) (t : List (String × Val)) (k : String)
    (h : ¬ p.1 = k) : odGet (p :: t) k = odGet t k := by
  simp [odGet, List.find?_cons_of_neg, h]

theorem odGet_cons_of_eq (p : String × Val) (t : List (String × Val)) (k : String)
    (h : p.1 = k) : odGet (p :: t) k = some p.2 := by
  simp [odGet, List.find?_cons_of_pos, h]

theorem odGet_append (d e : List (String × Val)) (k : String) :
    odGet (d ++ e) k = (odGet d k).or (odGet e k) := by
  cases h : List.find? (fun p => decide (p.1 = k)) d <;>
    simp [odGet, List.find?_append, h]

theorem odGet_map_update_ne (d : List (String × Val)) (k k' : String) (v : Val)
    (h : k' ≠ k) :
    odGet (d.map (fun p => if p.1 = k' then (k', v) else p)) k = odGet d k := by
  induction d with
  | nil => rfl
  | cons p t ih =>
    simp only [List.map_cons]
    by_cases hp : p.1 = k'
    · have hpk : ¬ p.1 = k := by rw [hp]; exact h
      rw [if_pos hp, odGet_cons_of_ne _ _ _ h, odGet_cons_of_ne _ _ _ hpk]
      exact ih
    · rw [if_neg hp]
      by_cases hk : p.1 = k
      · rw [odGet_cons_of_eq _ _ _ hk, odGet_cons_of_eq _ _ _ hk]
      · rw [odGet_cons_of_ne _ _ _ hk, odGet_cons_of_ne _ _ _ hk]
        exact ih

theorem odGet_odSet_ne (d : List (String × Val)) (k k' : String) (v : Val)
    (h : k' ≠ k) : odGet (odSet d k' v) k = odGet d k := by
  unfold odSet
  split
  · exact odGet_map_update_ne d k k' v h
  · rw [odGet_append]
    have : odGet [(k', v)] k = none := by
      simp [odGet, List.find?, h]
    rw [this, Option.or_none]

theorem merge_single_unrecognized (d : List (String × Val)) (k : String) (v : Val)
    (h : hasattr_plt_plot k = false) : merge_plot_kwargs d [(k, v)] = d := by
  simp [merge_plot_kwargs, h]

theorem odGet_merge_not_mem (d kwargs : List (String × Val)) (k : String)
    (h : k ∉ kwargs.map Prod.fst) :
    odGet (merge_plot_kwargs d kwargs) k = odGet d k := by
  induction kwargs generalizing d with
  | nil => rfl
  | cons q t ih =>
    simp only [List.map_cons, List.mem_cons] at h
    push_neg at h
    obtain ⟨h1, h2⟩ := h
    show odGet (List.foldl _ (if hasattr_plt_plot q.1 then odSet d q.1 q.2 else d) t) k = _
    rw [show ∀ d0, List.foldl
        (fun acc kv => if hasattr_plt_plot kv.1 then odSet acc kv.1 kv.2 else acc) d0 t =
        merge_plot_kwargs d0 t from fun d0 => rfl]
    rw [ih _ h2]
    split
    · exact odGet_odSet_ne d k q.1 q.2 (Ne.symm h1)
    · rfl

theorem npIdx_coe (n i : Nat) (h : i < n) : npIdx n ((i : Int)) = .ok i := by
  simp [npIdx, h]

theorem get_axis_pair_coe (s : State) (i j : Nat) (hi : i < s.subplots.1)
    (hj : j < s.subplots.2) :
    get_axis s (.pair ((i : Int), (j : Int))) = .ok (i, j) := by
  simp [get_axis, npIdx_coe _ _ hi, npIdx_coe _ _ hj]

theorem update_legend_axes_ok (s : State) (p : Nat × Nat) (v : Val)
    (hv : odGet s.other_defaults "showlegend" = some v) :
    update_legend s (.axes p) =
      .ok ({ s with legends := legSet s.legends (.axes p) (legval s) }, legval s) := by
  simp [update_legend, get_axis, hv]

theorem update_legend_pair_ok (s : State) (i j : Nat) (hi : i < s.subplots.1)
    (hj : j < s.subplots.2) (v : Val)
    (hv : odGet s.other_defaults "showlegend" = some v) :
    update_legend s (.pair ((i : Int), (j : Int))) =
      .ok ({ s with legends := legSet s.legends (.idx ((i : Int), (j : Int))) (legval s) },
           legval s) := by
  simp [update_legend, get_axis_pair_coe s i j hi hj, hv]

theorem update_legend_axes_err (s : State) (p : Nat × Nat)
    (hv : odGet s.other_defaults "showlegend" = none) :
    update_legend s (.axes p) = .error .keyError := by
  simp [update_legend, get_axis, hv]

theorem plot_default_ok (s : State) (v : Val)
    (hv : odGet s.other_defaults "showlegend" = some v) (x : Val) (args kwargs) :
    plot s x args .default kwargs =
      .ok ({ s with legends := legSet s.legends (.axes s.default_ax) (legval s) },
           { ax := s.default_ax, x := x, args := args, kwargs := kwargs,
             settings := merge_plot_kwargs s.plot_settings_default kwargs }) := by
  simp [plot, update_legend_axes_ok s _ v hv]

theorem plot_default_err (s : State)
    (hv : odGet s.other_defaults "showlegend" = none) (x : Val) (args kwargs) :
    plot s x args .default kwargs = .error .keyError := by
  simp [plot, update_legend_axes_err s _ hv]

theorem plot_axes_ok (s : State) (p : Nat × Nat) (v : Val)
    (hv : odGet s.other_defaults "showlegend" = some v) (x : Val) (args kwargs) :
    plot s x args (.target (.axes p)) kwargs =
      .ok ({ s with legends := legSet s.legends (.axes p) (legval s) },
           { ax := p, x := x, args := args, kwargs := kwargs,
             settings := merge_plot_kwargs s.plot_settings_default kwargs }) := by
  simp [plot, update_legend_axes_ok s p v hv]

theorem plot_axes_err (s : State) (p : Nat × Nat)
    (hv : odGet s.other_defaults "showlegend" = none) (x : Val) (args kwargs) :
    plot s x args (.target (.axes p)) kwargs = .error .keyError := by
  simp [plot, update_legend_axes_err s p hv]

theorem plot_pair_ok (s : State) (rc : Int × Int) (ax : Nat × Nat)
    (hax : get_axis s (.pair rc) = .ok ax) (v : Val)
    (hv : odGet s.other_defaults "showlegend" = some v) (x : Val) (args kwargs) :
    plot s x args (.target (.pair rc)) kwargs =
      .ok ({ s with default_ax := ax, legends := legSet s.legends (.axes ax) (legval s) },
           { ax := ax, x := x, args := args, kwargs := kwargs,
             settings := merge_plot_kwargs s.plot_settings_default kwargs }) := by
  have hv1 : odGet ({ s with default_ax := ax } : State).other_defaults "showlegend" = some v := hv
  simp [plot, set_default_axis, hax, Except.map,
    update_legend_axes_ok { s with default_ax := ax } ax v hv1]
  rfl

theorem plot_pair_err (s : State) (rc : Int × Int) (e : Err)
    (hax : get_axis s (.pair rc) = .error e) (x : Val) (args kwargs) :
    plot s x args (.target (.pair rc)) kwargs = .error e := by
  simp [plot, set_default_axis, hax, Except.map]

theorem plot_pair_err_legend (s : State) (rc : Int × Int) (ax : Nat × Nat)
    (hax : get_axis s (.pair rc) = .ok ax)
    (hv : odGet s.other_defaults "showlegend" = none) (x : Val) (args kwargs) :
    plot s x args (.target (.pair rc)) kwargs = .error .keyError := by
  have hv1 : odGet ({ s with default_ax := ax } : State).other_defaults "showlegend" = none := hv
  simp [plot, set_default_axis, hax, Except.map,
    update_legend_axes_err { s with default_ax := ax } ax hv1]

theorem plot_int_err (s : State) (i : Int) (x : Val) (args kwargs) :
    plot s x args (.target (.int i)) kwargs = .error .notImplementedError := rfl

theorem plot_other_err (s : State) (x : Val) (args kwargs) :
    plot s x args (.target .other) kwargs = .error .attributeError := rfl

theorem plot_ok_spec (s : State) (x : Val) (args : List Val) (axArg : PlotAxArg)
    (kwargs : List (String × Val)) (s' : State) (c : PlotCall)
    (h : plot s x args axArg kwargs = .ok (s', c)) :
    c.x = x ∧ c.args = args ∧ c.kwargs = kwargs ∧
    c.settings = merge_plot_kwargs s.plot_settings_default kwargs ∧
    s'.plot_settings_default = s.plot_settings_default ∧
    s'.other_defaults = s.other_defaults ∧
    s'.legend_settings = s.legend_settings ∧
    s'.subplots = s.subplots ∧
    s'.kwargsAttr = s.kwargsAttr ∧
    s'.colorcycle = s.colorcycle := by
  cases axArg with
  | default =>
    cases hv : odGet s.other_defaults "showlegend" with
    | none => rw [plot_default_err s hv] at h; simp at h
    | some v =>
      rw [plot_default_ok s v hv] at h
      injection h with h'
      injection h' with hA hB
      subst hA; subst hB
      exact ⟨rfl, rfl, rfl, rfl, rfl, rfl, rfl, rfl, rfl, rfl⟩
  | target t =>
    cases t with
    | axes p =>
      cases hv : odGet s.other_defaults "showlegend" with
      | none => rw [plot_axes_err s p hv] at h; simp at h
      | some v =>
        rw [plot_axes_ok s p v hv] at h
        injection h with h'
        injection h' with hA hB
        subst hA; subst hB
        exact ⟨rfl, rfl, rfl, rfl, rfl, rfl, rfl, rfl, rfl, rfl⟩
    | pair rc =>
      cases hga : get_axis s (.pair rc) with
      | error e => rw [plot_pair_err s rc e hga] at h; simp at h
      | ok ax =>
        cases hv : odGet s.other_defaults "showlegend" with
        | none => rw [plot_pair_err_legend s rc ax hga hv] at h; simp at h
        | some v =>
          rw [plot_pair_ok s rc ax hga v hv] at h
          injection h with h'
          injection h' with hA hB
          subst hA; subst hB
          exact ⟨rfl, rfl, rfl, rfl, rfl, rfl, rfl, rfl, rfl, rfl⟩
    | int i => rw [plot_int_err] at h; simp at h
    | other => rw [plot_other_err] at h; simp at h

theorem plot_default_inv (s : State) (x : Val) (args kwargs) (s' : State) (c : PlotCall)
    (h : plot s x args .default kwargs = .ok (s', c)) :
    c.ax = s.default_ax ∧ s'.default_ax = s.default_ax := by
  cases hv : odGet s.other_defaults "showlegend" with
  | none => rw [plot_default_err s hv] at h; simp at h
  | some v =>
    rw [plot_default_ok s v hv] at h
    injection h with h'
    injection h' with hA hB
    subst hA; subst hB
    exact ⟨rfl, rfl⟩

theorem plot_pair_inv (s : State) (x : Val) (args kwargs) (rc : Int × Int)
    (s' : State) (c : PlotCall)
    (h : plot s x args (.target (.pair rc)) kwargs = .ok (s', c)) :
    get_axis s (.pair rc) = .ok c.ax ∧ s'.default_ax = c.ax := by
  cases hga : get_axis s (.pair rc) with
  | error e => rw [plot_pair_err s rc e hga] at h; simp at h
  | ok ax =>
    cases hv : odGet s.other_defaults "showlegend" with
    | none => rw [plot_pair_err_legend s rc ax hga hv] at h; simp at h
    | some v =>
      rw [plot_pair_ok s rc ax hga v hv] at h
      injection h with h'
      injection h' with hA hB
      subst hA; subst hB
      exact ⟨rfl, rfl⟩

theorem construct_eq (nrows ncols : Nat) (hr : 1 ≤ nrows) (hc : 1 ≤ ncols) (sx sy : Bool) :
    construct nrows ncols sx sy [] [] = .ok (initState nrows ncols) := by
  have h0 : ¬ (nrows = 0 ∨ ncols = 0) := by omega
  have e1 : npIdx nrows ((0 : Int)) = .ok 0 := by
    unfold npIdx
    rw [if_pos ⟨le_refl 0, by exact_mod_cast hr⟩]
    rfl
  have e2 : npIdx ncols ((0 : Int)) = .ok 0 := by
    unfold npIdx
    rw [if_pos ⟨le_refl 0, by exact_mod_cast hc⟩]
    rfl
  simp [construct, h0, set_default_axis, get_axis, e1, e2, Except.map, initState]

theorem npIdx_err_kind (n : Nat) (i : Int) (e : Err) (h : npIdx n i = .error e) :
    e = .indexError := by
  unfold npIdx at h
  split_ifs at h
  all_goals simp_all

theorem npIdx_err_iff (n : Nat) (i : Int) :
    npIdx n i = .error .indexError ↔ (i < -(n : Int) ∨ (n : Int) ≤ i) := by
  unfold npIdx
  split_ifs with h1 h2 <;> simp <;> omega

theorem npIdx_ok_range (n : Nat) (i : Int) (k : Nat) (h : npIdx n i = .ok k) :
    -(n : Int) ≤ i ∧ i < (n : Int) := by
  unfold npIdx at h
  split_ifs at h with h1 h2 <;> (simp_all; omega)

theorem get_axis_pair_ok_toNat (s : State) (r c : Int)
    (h1 : 0 ≤ r) (h2 : r < (s.subplots.1 : Int))
    (h3 : 0 ≤ c) (h4 : c < (s.subplots.2 : Int)) :
    get_axis s (.pair (r, c)) = .ok (r.toNat, c.toNat) := by
  have e1 : npIdx s.subplots.1 r = .ok r.toNat := by
    unfold npIdx; rw [if_pos ⟨h1, h2⟩]
  have e2 : npIdx s.subplots.2 c = .ok c.toNat := by
    unfold npIdx; rw [if_pos ⟨h3, h4⟩]
  simp [get_axis, e1, e2]

theorem get_axis_pair_err_iff (s : State) (r c : Int) :
    get_axis s (.pair (r, c)) = .error .indexError ↔
      (r < -(s.subplots.1 : Int) ∨ (s.subplots.1 : Int) ≤ r ∨
       c < -(s.subplots.2 : Int) ∨ (s.subplots.2 : Int) ≤ c) := by
  cases h1 : npIdx s.subplots.1 r with
  | error e =>
    obtain rfl := npIdx_err_kind _ _ _ h1
    have hr := (npIdx_err_iff s.subplots.1 r).1 h1
    simp only [get_axis, h1]
    constructor
    · intro _; omega
    · intro _; trivial
  | ok r' =>
    have hr := npIdx_ok_range _ _ _ h1
    cases h2 : npIdx s.subplots.2 c with
    | error e =>
      obtain rfl := npIdx_err_kind _ _ _ h2
      have hc := (npIdx_err_iff s.subplots.2 c).1 h2
      simp only [get_axis, h1, h2]
      constructor
      · intro _; omega
      · intro _; trivial
    | ok c' =>
      have hc := npIdx_ok_range _ _ _ h2
      simp only [get_axis, h1, h2]
      constructor
      · intro hfalse; exact absurd hfalse (by simp)
      · intro hdisj; omega

theorem odGet_of_nodup (d : List (String × Val)) (hd : (d.map Prod.fst).Nodup)
    (p : String × Val) (hp : p ∈ d) : odGet d p.1 = some p.2 := by
  induction d with
  | nil => cases hp
  | cons q t ih =>
    rcases List.mem_cons.1 hp with rfl | hp'
    · exact odGet_cons_of_eq _ _ _ rfl
    · have hq : ¬ q.1 = p.1 := by
        intro he
        exact (List.nodup_cons.1 hd).1 (he ▸ List.mem_map_of_mem Prod.fst hp')
      rw [odGet_cons_of_ne _ _ _ hq]
      exact ih (List.nodup_cons.1 hd).2 hp'

theorem dict_loop_spec (x y : Val) (kwargs : List (String × Val)) (keys : List Val)
    (hy : ∀ k ∈ keys, ∃ w, y.index k = some w) :
    ∀ s : State, odHas s.other_defaults "showlegend" = true →
    ∃ s' calls, dict_loop x y kwargs s keys = .ok (s', calls) ∧
      s'.other_defaults = s.other_defaults ∧
      calls.map (fun c => (c.args, c.kwargs)) = keys.map (fun k =>
        ([(y.index k).getD .pynone],
         kwargs.map (fun q => (q.1, (q.2.index k).getD q.2)))) := by
  induction keys with
  | nil => exact fun s _ => ⟨s, [], rfl, rfl, rfl⟩
  | cons k rest ih =>
    intro s hs
    obtain ⟨yk, hyk⟩ := hy k (List.mem_cons_self k rest)
    obtain ⟨v, hv⟩ := Option.isSome_iff_exists.1 ((odHas_iff_isSome _ _).1 hs)
    have hplot := plot_default_ok s v hv ((x.index k).getD x) [yk]
      (kwargs.map (fun q => (q.1, (q.2.index k).getD q.2)))
    have hs1 : odHas ({ s with
        legends := legSet s.legends (.axes s.default_ax) (legval s) } : State).other_defaults
        "showlegend" = true := hs
    obtain ⟨s', calls, hrest, hod, hmap⟩ :=
      ih (fun k' hk' => hy k' (List.mem_cons_of_mem k hk')) _ hs1
    refine ⟨s',
        ({ ax := s.default_ax, x := (x.index k).getD x, args := [yk],
              kwargs := kwargs.map (fun q => (q.1, (q.2.index k).getD q.2)),
              settings := merge_plot_kwargs s.plot_settings_default
                (kwargs.map (fun q => (q.1, (q.2.index k).getD q.2))) } : PlotCall) :: calls,
        ?_, ?_, ?_⟩
    · simp only [dict_loop, hyk, hplot, hrest]
    · exact hod
    · simp only [List.map_cons, hmap, hyk]
      rfl

theorem rowMajor_eq_product (rows cols : Nat) :
    rowMajor rows cols = (List.range rows) ×ˢ (List.range cols) := rfl

theorem rowMajor_nodup (rows cols : Nat) : (rowMajor rows cols).Nodup := by
  rw [rowMajor_eq_product]
  exact List.Nodup.product (List.nodup_range rows) (List.nodup_range cols)

theorem mem_rowMajor (rows cols : Nat) (p : Nat × Nat) :
    p ∈ rowMajor rows cols ↔ p.1 < rows ∧ p.2 < cols := by
  cases p with
  | mk a b => simp [rowMajor, List.mem_range]

theorem legends_fold_spec (ps : List (Nat × Nat)) :
    ∀ s : State, (∀ p ∈ ps, p.1 < s.subplots.1 ∧ p.2 < s.subplots.2) →
    odHas s.other_defaults "showlegend" = true →
    ∃ s', legends_fold s ps = .ok s' ∧
      s'.subplots = s.subplots ∧ s'.other_defaults = s.other_defaults ∧
      s'.legend_settings = s.legend_settings ∧
      s'.legends = ps.foldl
        (fun acc p => legSet acc (.idx ((p.1 : Int), (p.2 : Int))) (legval s))
        s.legends := by
  induction ps with
  | nil => exact fun s _ _ => ⟨s, rfl, rfl, rfl, rfl, rfl⟩
  | cons p rest ih =>
    intro s hin hs
    obtain ⟨v, hv⟩ := Option.isSome_iff_exists.1 ((odHas_iff_isSome _ _).1 hs)
    obtain ⟨hp1, hp2⟩ := hin p (List.mem_cons_self p rest)
    have heq := update_legend_pair_ok s p.1 p.2 hp1 hp2 v hv
    obtain ⟨s', hfold, hsub, hod, hls, hlegs⟩ :=
      ih ({ s with legends := legSet s.legends (.idx ((p.1 : Int), (p.2 : Int))) (legval s) } : State)
        (fun q hq => hin q (List.mem_cons_of_mem p hq)) hs
    refine ⟨s', ?_, hsub, hod, hls, ?_⟩
    · show legends_fold s (p :: rest) = .ok s'
      simp only [legends_fold, heq]
      exact hfold
    · rw [hlegs, List.foldl_cons]
      rfl

theorem foldl_legSet_fresh (lv : Option (List (String × Val))) :
    ∀ (ps : List (Nat × Nat)) (acc : List (LegKey × Option (List (String × Val)))),
    ps.Nodup →
    (∀ p ∈ ps, ∀ q ∈ acc, q.1 ≠ LegKey.idx ((p.1 : Int), (p.2 : Int))) →
    ps.foldl (fun acc p => legSet acc (.idx ((p.1 : Int), (p.2 : Int))) lv) acc =
      acc ++ ps.map (fun p => (LegKey.idx ((p.1 : Int), (p.2 : Int)), lv)) := by
  intro ps
  induction ps with
  | nil => intro acc _ _; simp
  | cons p rest ih =>
    intro acc hnd hfresh
    have hnotin : ¬ (acc.any (fun q => q.1 = LegKey.idx ((p.1 : Int), (p.2 : Int)))) = true := by
      simp only [List.any_eq_true, not_exists]
      intro q
      rintro ⟨hq, he⟩
      exact hfresh p (List.mem_cons_self p rest) q hq (by simpa using he)
    have hstep : legSet acc (.idx ((p.1 : Int), (p.2 : Int))) lv =
        acc ++ [(LegKey.idx ((p.1 : Int), (p.2 : Int)), lv)] := by
      unfold legSet
      rw [if_neg hnotin]
    rw [List.foldl_cons, hstep,
      ih (acc ++ [(LegKey.idx ((p.1 : Int), (p.2 : Int)), lv)])
        (List.nodup_cons.1 hnd).2 ?fresh]
    · simp
    case fresh =>
      intro q hq r hr
      rcases List.mem_append.1 hr with hr1 | hr2
      · exact hfresh q (List.mem_cons_of_mem p hq) r hr1
      · have hr2' : r = (LegKey.idx ((p.1 : Int), (p.2 : Int)), lv) := by simpa using hr2
        subst hr2'
        intro he
        have hpq : p = q := by
          simp only [LegKey.idx.injEq, Prod.mk.injEq, Nat.cast_inj] at he
          exact Prod.ext he.1 he.2
        exact (List.nodup_cons.1 hnd).1 (hpq ▸ hq)

/-!  ## Claim theorems  -/

/-- C1 (code_bug evidence).  The claim says a supplied recognised styling
option overrides the session default in the option set handed to the
renderer's line-draw primitive.  On the code it does not: `plot` keeps a
kwarg only when `hasattr(plt.plot, key)` holds (source line 241), which is
false for every styling option name on the `plt.plot` function object.
Concretely, after construction with the default `linestyle='-'`, a call
supplying `linestyle='--'` still hands `linestyle='-'` to `ax.plot`, and a
call supplying `color='red'` hands no `color` at all. -/
theorem c1_supplied_styling_option_dropped :
    ((construct 1 1 false false [] []).bind (fun s =>
        plot s (.list [.num 1, .num 2]) [] .default [("linestyle", .str "--")])).map
        (fun r => odGet r.2.settings "linestyle") = .ok (some (.str "-")) ∧
    ((construct 1 1 false false [] []).bind (fun s =>
        plot s (.list [.num 1, .num 2]) [] .default [("color", .str "red")])).map
        (fun r => odGet r.2.settings "color") = .ok none :=
  ⟨rfl, rfl⟩

/-- C2: for every alias pair in the fixed table, calling `plot` with the
short-form option name and a value is equivalent to calling `plot` with the
canonical name and the same value: the session state evolves identically and
the renderer's line-draw primitive receives the same merged option set. -/
theorem c2_alias_equivalent (a canon : String) (h : (a, canon) ∈ alias_dict)
    (s : State) (x : Val) (args : List Val) (axArg : PlotAxArg) (v : Val) :
    (plot s x args axArg [(a, v)]).map (fun r => (r.1, r.2.settings)) =
    (plot s x args axArg [(canon, v)]).map (fun r => (r.1, r.2.settings)) := by
  have ha : hasattr_plt_plot a = false ∧ hasattr_plt_plot canon = false := by
    fin_cases h
    all_goals exact ⟨by decide, by decide⟩
  obtain ⟨ha1, ha2⟩ := ha
  have hm : ∀ d, merge_plot_kwargs d [(a, v)] = merge_plot_kwargs d [(canon, v)] := fun d =>
    (merge_single_unrecognized d a v ha1).trans (merge_single_unrecognized d canon v ha2).symm
  cases axArg with
  | default =>
    cases hv : odGet s.other_defaults "showlegend" with
    | none => rw [plot_default_err s hv, plot_default_err s hv]
    | some w =>
      rw [plot_default_ok s w hv, plot_default_ok s w hv, hm]
      rfl
  | target t =>
    cases t with
    | axes p =>
      cases hv : odGet s.other_defaults "showlegend" with
      | none => rw [plot_axes_err s p hv, plot_axes_err s p hv]
      | some w =>
        rw [plot_axes_ok s p w hv, plot_axes_ok s p w hv, hm]
        rfl
    | pair rc =>
      cases hga : get_axis s (.pair rc) with
      | error e => rw [plot_pair_err s rc e hga, plot_pair_err s rc e hga]
      | ok ax =>
        cases hv : odGet s.other_defaults "showlegend" with
        | none =>
          rw [plot_pair_err_legend s rc ax hga hv, plot_pair_err_legend s rc ax hga hv]
        | some w =>
          rw [plot_pair_ok s rc ax hga w hv, plot_pair_ok s rc ax hga w hv, hm]
          rfl
    | int i => rw [plot_int_err, plot_int_err]
    | other => rw [plot_other_err, plot_other_err]

/-- C2 witness: `lw=2` and `linewidth=2` give the same session state and the
same renderer option set on a concrete 2 x 2 session. -/
theorem c2_alias_equivalent_witness :
    (plot (initState 2 2) (.list [.num 1]) [] .default [("lw", .num 2)]).map
        (fun r => (r.1, r.2.settings)) =
    (plot (initState 2 2) (.list [.num 1]) [] .default [("linewidth", .num 2)]).map
        (fun r => (r.1, r.2.settings)) :=
  c2_alias_equivalent "lw" "linewidth" (by decide) (initState 2 2)
    (.list [.num 1]) [] .default (.num 2)

/-- C3 counterexample: on a 2 x 2 session the index pair `(-1, 0)` lies
outside `0 ≤ r < rows`, yet `get_axis` does not fail with an index error —
numpy indexing wraps it around to row 1, so resolution SUCCEEDS and returns
the surface `(1, 0)`. -/
theorem c3_counterexample_negative_index :
    (construct 2 2 false false [] []).bind
        (fun s => get_axis s (.pair (-1, 0))) = .ok (1, 0) := rfl

/-- C3 (amended): on any session constructed with `rows ≥ 1`, `cols ≥ 1`,
resolving an index pair `(r, c)` with `0 ≤ r < rows` and `0 ≤ c < cols`
succeeds and returns the surface at that grid position; and resolution fails
with an index error exactly when `r` falls outside `[-rows, rows)` or `c`
falls outside `[-cols, cols)` — Python-style negative indices inside those
ranges resolve by wrap-around instead of failing. -/
theorem c3_index_pair_resolution (nrows ncols : Nat) (hr : 1 ≤ nrows) (hc : 1 ≤ ncols)
    (sx sy : Bool) (s : State) (hs : construct nrows ncols sx sy [] [] = .ok s)
    (r c : Int) :
    (0 ≤ r → r < nrows → 0 ≤ c → c < ncols →
      get_axis s (.pair (r, c)) = .ok (r.toNat, c.toNat)) ∧
    (get_axis s (.pair (r, c)) = .error .indexError ↔
      (r < -(nrows : Int) ∨ (nrows : Int) ≤ r ∨
       c < -(ncols : Int) ∨ (ncols : Int) ≤ c)) := by
  have hs' : s = initState nrows ncols := by
    have := (construct_eq nrows ncols hr hc sx sy).symm.trans hs
    exact (Except.ok.inj this).symm
  subst hs'
  have hsub : (initState nrows ncols).subplots = (nrows, ncols) := rfl
  constructor
  · intro h1 h2 h3 h4
    exact get_axis_pair_ok_toNat _ r c h1 (by rw [hsub]; exact_mod_cast h2)
      h3 (by rw [hsub]; exact_mod_cast h4)
  · rw [get_axis_pair_err_iff, hsub]

/-- C3 witness: concrete uses of `c3_index_pair_resolution` on a 2 x 2
session: `(0, 1)` resolves to surface `(0, 1)`, and `(2, 0)` fails with an
index error. -/
theorem c3_index_pair_resolution_witness :
    get_axis (initState 2 2) (.pair (0, 1)) = .ok (0, 1) ∧
    get_axis (initState 2 2) (.pair (2, 0)) = .error .indexError := by
  constructor
  · exact (c3_index_pair_resolution 2 2 (by decide) (by decide) false false
      (initState 2 2) rfl 0 1).1 (by decide) (by decide) (by decide) (by decide)
  · exact (c3_index_pair_resolution 2 2 (by decide) (by decide) false false
      (initState 2 2) rfl 2 0).2.mpr (by decide)

/-- C4 (code_bug evidence).  The claim says `autoscale(enable=True,
axis='x')` clears a previously stored x-limit and completes with a redraw.
On the code every `autoscale` call on a constructed session raises
`AttributeError` before doing anything: its first step `self.get_axes()`
reads `self.kwargs`, an attribute `__init__` never assigns (the assignment
at source line 164 is commented out).  Even after a plot call that supplied
`xlim` (which is never stored anywhere), `autoscale` still raises. -/
theorem c4_autoscale_raises_attribute_error :
    ((construct 1 1 false false [] []).bind (fun s =>
        (plot s (.list [.num 1]) [] .default [("xlim", .tup [.num 0, .num 5])]).bind
          (fun r => autoscale r.1 (some true) "x" none))) = .error .attributeError ∧
    ((construct 1 1 false false [] []).bind
        (fun s => autoscale s (some true) "x" none)) = .error .attributeError :=
  ⟨rfl, rfl⟩

/-- C5: in dict mode, `add_lines` issues exactly one plot call per key of
`y`, in insertion order; for each key, every styling option value is looked
up with that series key — the per-series value is used when the subscription
succeeds (e.g. `color={'a': 'red', 'b': 'blue'}` gives red to series `a` and
blue to series `b`), and any other value is broadcast unchanged to every
series (e.g. the scalar `color='red'` reaches both calls); the y-series
handed to each call is `y[key]`. -/
theorem c5_dict_mode_per_series_broadcast (s : State)
    (hs : odHas s.other_defaults "showlegend" = true)
    (x : Val) (d : List (String × Val)) (hd : (d.map Prod.fst).Nodup)
    (kwargs : List (String × Val)) :
    ∃ s' calls, add_lines s x (.dict d) "dict" kwargs = .ok (s', calls, []) ∧
      calls.map (fun c => (c.args, c.kwargs)) = d.map (fun p =>
        ([p.2], kwargs.map (fun q => (q.1, (q.2.index (.str p.1)).getD q.2)))) := by
  have hy : ∀ k ∈ d.map (fun p => Val.str p.1), ∃ w, (Val.dict d).index k = some w := by
    intro k hk
    obtain ⟨p, hp, rfl⟩ := List.mem_map.1 hk
    exact ⟨p.2, odGet_of_nodup d hd p hp⟩
  obtain ⟨s', calls, hloop, -, hmap⟩ :=
    dict_loop_spec x (.dict d) kwargs (d.map (fun p => Val.str p.1)) hy s hs
  refine ⟨s', calls, ?_, ?_⟩
  · have hmode : add_lines s x (.dict d) "dict" kwargs =
        (dict_loop x (.dict d) kwargs s (d.map (fun p => Val.str p.1))).map
          (fun r => (r.1, r.2, ([] : List String))) := rfl
    rw [hmode, hloop]
    rfl
  · rw [hmap, List.map_map]
    refine List.map_congr_left ?_
    intro p hp
    simp only [Function.comp]
    rw [show (Val.dict d).index (.str p.1) = odGet d p.1 from rfl,
      odGet_of_nodup d hd p hp]
    rfl

/-- C5 witness: the spec's concrete example on a fresh session — with
`y = {'a': [1,2,3], 'b': [4,5,6]}`, a dict-valued `color` is resolved
per-series (red for `a`, blue for `b`) and a scalar `color='red'` is
broadcast to both plot calls. -/
theorem c5_dict_mode_per_series_broadcast_witness :
    (∃ s' calls, add_lines (initState 1 1) (.list [.num 0, .num 1, .num 2])
          (.dict [("a", .list [.num 1, .num 2, .num 3]),
                  ("b", .list [.num 4, .num 5, .num 6])]) "dict"
          [("color", .dict [("a", .str "red"), ("b", .str "blue")])] =
            .ok (s', calls, []) ∧
        calls.map (fun c => (c.args, c.kwargs)) =
          [([Val.list [.num 1, .num 2, .num 3]], [("color", Val.str "red")]),
           ([Val.list [.num 4, .num 5, .num 6]], [("color", Val.str "blue")])]) ∧
    (∃ s' calls, add_lines (initState 1 1) (.list [.num 0, .num 1, .num 2])
          (.dict [("a", .list [.num 1, .num 2, .num 3]),
                  ("b", .list [.num 4, .num 5, .num 6])]) "dict"
          [("color", .str "red")] = .ok (s', calls, []) ∧
        calls.map (fun c => (c.args, c.kwargs)) =
          [([Val.list [.num 1, .num 2, .num 3]], [("color", Val.str "red")]),
           ([Val.list [.num 4, .num 5, .num 6]], [("color", Val.str "red")])]) := by
  constructor
  · obtain ⟨s', calls, h1, h2⟩ := c5_dict_mode_per_series_broadcast (initState 1 1) rfl
      (.list [.num 0, .num 1, .num 2])
      [("a", .list [.num 1, .num 2, .num 3]), ("b", .list [.num 4, .num 5, .num 6])]
      (by decide) [("color", .dict [("a", .str "red"), ("b", .str "blue")])]
    exact ⟨s', calls, h1, h2.trans rfl⟩
  · obtain ⟨s', calls, h1, h2⟩ := c5_dict_mode_per_series_broadcast (initState 1 1) rfl
      (.list [.num 0, .num 1, .num 2])
      [("a", .list [.num 1, .num 2, .num 3]), ("b", .list [.num 4, .num 5, .num 6])]
      (by decide) [("color", .str "red")]
    exact ⟨s', calls, h1, h2.trans rfl⟩

/-- C6 counterexample: the claim demands exactly `rows × columns` entries
keyed by grid index.  On a 1 x 1 session on which one plot call has been
made, `update_legends` returns a mapping of size 2: `plot` registered its
legend under the Axes OBJECT (not the grid index), and `update_legends`
added the `(0, 0)`-keyed entry beside it. -/
theorem c6_counterexample_extra_axes_key :
    ((construct 1 1 false false [] []).bind (fun s =>
        (plot s (.list [.num 1, .num 2]) [] .default []).bind (fun r =>
          (update_legends r.1).map (fun u => u.2.length)))) = .ok 2 := rfl

/-- C6 (amended): on a session constructed with `rows ≥ 1`, `cols ≥ 1` on
which no plot call has yet been made, `update_legends` applies the
per-surface legend update once per grid index in row-major order and returns
a mapping whose keys are exactly the grid indices in row-major order —
`rows × columns` entries.  (After a plot call the mapping additionally keeps
the Axes-object-keyed entries that `plot` recorded, so the count can
exceed `rows × columns`.) -/
theorem c6_update_legends_row_major (nrows ncols : Nat) (hr : 1 ≤ nrows) (hc : 1 ≤ ncols)
    (sx sy : Bool) (s : State) (hs : construct nrows ncols sx sy [] [] = .ok s) :
    ∃ s' m, update_legends s = .ok (s', m) ∧
      m.map Prod.fst =
        (rowMajor nrows ncols).map (fun p => LegKey.idx ((p.1 : Int), (p.2 : Int))) := by
  have hs' : s = initState nrows ncols := by
    have := (construct_eq nrows ncols hr hc sx sy).symm.trans hs
    exact (Except.ok.inj this).symm
  subst hs'
  have hin : ∀ p ∈ rowMajor nrows ncols,
      p.1 < (initState nrows ncols).subplots.1 ∧
      p.2 < (initState nrows ncols).subplots.2 :=
    fun p hp => (mem_rowMajor nrows ncols p).1 hp
  obtain ⟨s', hfold, -, -, -, hlegs⟩ :=
    legends_fold_spec (rowMajor nrows ncols) (initState nrows ncols) hin rfl
  refine ⟨s', s'.legends, ?_, ?_⟩
  · have harg : rowMajor (initState nrows ncols).subplots.1
        (initState nrows ncols).subplots.2 = rowMajor nrows ncols := rfl
    unfold update_legends
    rw [harg, hfold]
  · rw [hlegs, foldl_legSet_fresh _ _ _ (rowMajor_nodup nrows ncols)
      (by intro p _ q hq; simp [initState] at hq)]
    simp [initState, List.map_map]

/-- C6 witness: `c6_update_legends_row_major` on a fresh 2 x 2 session. -/
theorem c6_update_legends_row_major_witness :
    ∃ s' m, update_legends (initState 2 2) = .ok (s', m) ∧
      m.map Prod.fst =
        (rowMajor 2 2).map (fun p => LegKey.idx ((p.1 : Int), (p.2 : Int))) :=
  c6_update_legends_row_major 2 2 (by decide) (by decide) false false
    (initState 2 2) rfl

/-- C7: unique-per-call options do not persist.  Provided the session's
line-plot defaults do not themselves contain `label`, after a plot call that
supplied `label="A"`, a later plot call on the same session that does not
supply `label` hands the renderer's line-draw primitive an option set with
no `label` binding at all — in particular not `"A"`.  (Each call rebuilds
its option set from `_plot_settings_default`, which `plot` never mutates.) -/
theorem c7_label_not_persistent (s : State)
    (hdef : odGet s.plot_settings_default "label" = none)
    (x1 : Val) (args1 : List Val) (ax1 : PlotAxArg) (kwargs1 : List (String × Val))
    (_hk1 : ("label", Val.str "A") ∈ kwargs1) (s1 : State) (c1 : PlotCall)
    (h1 : plot s x1 args1 ax1 kwargs1 = .ok (s1, c1))
    (x2 : Val) (args2 : List Val) (ax2 : PlotAxArg) (kwargs2 : List (String × Val))
    (hk2 : "label" ∉ kwargs2.map Prod.fst) (s2 : State) (c2 : PlotCall)
    (h2 : plot s1 x2 args2 ax2 kwargs2 = .ok (s2, c2)) :
    odGet c2.settings "label" = none := by
  obtain ⟨-, -, -, -, hpd1, -, -, -, -, -⟩ := plot_ok_spec _ _ _ _ _ _ _ h1
  obtain ⟨-, -, -, hset2, -, -, -, -, -, -⟩ := plot_ok_spec _ _ _ _ _ _ _ h2
  rw [hset2, hpd1, odGet_merge_not_mem _ _ _ hk2, hdef]

/-- C7 witness: two consecutive plot calls on a fresh 1 x 1 session; the
first supplies `label="A"`, the second (supplying only `linewidth`) hands
the renderer no `label`. -/
theorem c7_label_not_persistent_witness :
    ∃ s1 c1 s2 c2,
      plot (initState 1 1) (.list [.num 1]) [] .default [("label", .str "A")] =
        .ok (s1, c1) ∧
      plot s1 (.list [.num 2]) [] .default [("linewidth", .num 2)] = .ok (s2, c2) ∧
      odGet c2.settings "label" = none := by
  refine ⟨{ initState 1 1 with legends := [(LegKey.axes (0, 0), some legend_defaults)] },
      { ax := (0, 0), x := .list [.num 1], args := [],
          kwargs := [("label", .str "A")], settings := [("linestyle", .str "-")] },
      { initState 1 1 with legends := [(LegKey.axes (0, 0), some legend_defaults)] },
      { ax := (0, 0), x := .list [.num 2], args := [],
          kwargs := [("linewidth", .num 2)], settings := [("linestyle", .str "-")] },
      rfl, rfl, ?_⟩
  exact c7_label_not_persistent (initState 1 1) rfl (.list [.num 1]) [] .default
    [("label", .str "A")] (List.mem_cons_self _ _)
    { initState 1 1 with legends := [(LegKey.axes (0, 0), some legend_defaults)] }
    { ax := (0, 0), x := .list [.num 1], args := [],
        kwargs := [("label", .str "A")], settings := [("linestyle", .str "-")] }
    rfl (.list [.num 2]) [] .default [("linewidth", .num 2)] (by decide)
    { initState 1 1 with legends := [(LegKey.axes (0, 0), some legend_defaults)] }
    { ax := (0, 0), x := .list [.num 2], args := [],
        kwargs := [("linewidth", .num 2)], settings := [("linestyle", .str "-")] }
    rfl

/-- C8: `add_lines` with a mode string that is (case-insensitively) neither
`'dict'` nor `'array'` performs zero plot calls, raises nothing, leaves the
session state unchanged, and prints the diagnostic line. -/
theorem c8_bad_mode_noop (s : State) (x y : Val) (mode : String)
    (kwargs : List (String × Val))
    (h1 : pyLower mode ≠ "dict") (h2 : pyLower mode ≠ "array") :
    add_lines s x y mode kwargs =
      .ok (s, [], ["Error! Incorrect mode specification. Ignoring method call"]) := by
  simp [add_lines, h1, h2]

/-- C8 witness: `mode='bogus'` on a fresh session is a pure no-op with the
diagnostic. -/
theorem c8_bad_mode_noop_witness :
    add_lines (initState 1 1) (.num 0) (.num 0) "bogus" [] =
      .ok (initState 1 1, [],
        ["Error! Incorrect mode specification. Ignoring method call"]) :=
  c8_bad_mode_noop (initState 1 1) (.num 0) (.num 0) "bogus" [] (by decide) (by decide)

/-- C9: any extra positional construction argument raises
`NotImplementedError` unconditionally (the failed construction yields no
session object, so no session state exists to be mutated), and a
bare-integer surface target likewise raises `NotImplementedError`
unconditionally from both `get_axis` and `set_default_axis`, which return no
updated state. -/
theorem c9_unsupported_inputs (nrows ncols : Nat) (sx sy : Bool) (a : Val)
    (rest : List Val) (kwargs : List (String × Val)) (s : State) (i : Int) :
    construct nrows ncols sx sy (a :: rest) kwargs = .error .notImplementedError ∧
    get_axis s (.int i) = .error .notImplementedError ∧
    set_default_axis s (.int i) = .error .notImplementedError :=
  ⟨rfl, rfl, rfl⟩

/-- C10: a plot call whose `ax` argument is an explicit (row, column) pair
does not just resolve that surface for the one call — it overwrites the
session's default surface (which becomes the surface just drawn on), so a
subsequent plot call that omits the target draws on that most recently
targeted surface. -/
theorem c10_explicit_target_overwrites_default (s : State) (x : Val)
    (args : List Val) (kwargs : List (String × Val)) (rc : Int × Int)
    (s1 : State) (c1 : PlotCall)
    (h1 : plot s x args (.target (.pair rc)) kwargs = .ok (s1, c1))
    (x2 : Val) (args2 : List Val) (kwargs2 : List (String × Val))
    (s2 : State) (c2 : PlotCall)
    (h2 : plot s1 x2 args2 .default kwargs2 = .ok (s2, c2)) :
    get_axis s (.pair rc) = .ok c1.ax ∧ s1.default_ax = c1.ax ∧ c2.ax = c1.ax := by
  obtain ⟨hga, hda⟩ := plot_pair_inv _ _ _ _ _ _ _ h1
  obtain ⟨hax2, -⟩ := plot_default_inv _ _ _ _ _ _ h2
  exact ⟨hga, hda, hax2.trans hda⟩

/-- C10 witness: on a fresh 2 x 2 session (default surface `(0, 0)`), a plot
call targeting `(1, 1)` makes `(1, 1)` the default, and the next
target-omitting plot call draws on `(1, 1)`. -/
theorem c10_explicit_target_overwrites_default_witness :
    ∃ s1 c1 s2 c2,
      plot (initState 2 2) (.list [.num 1]) [] (.target (.pair (1, 1))) [] =
        .ok (s1, c1) ∧
      plot s1 (.list [.num 2]) [] .default [] = .ok (s2, c2) ∧
      (get_axis (initState 2 2) (.pair (1, 1)) = .ok c1.ax ∧
        s1.default_ax = c1.ax ∧ c2.ax = c1.ax) := by
  refine ⟨{ initState 2 2 with default_ax := (1, 1), legends := [(LegKey.axes (1, 1), some legend_defaults)] },
      { ax := (1, 1), x := .list [.num 1], args := [], kwargs := [],
          settings := [("linestyle", .str "-")] },
      { initState 2 2 with default_ax := (1, 1), legends := [(LegKey.axes (1, 1), some legend_defaults)] },
      { ax := (1, 1), x := .list [.num 2], args := [], kwargs := [],
          settings := [("linestyle", .str "-")] },
      rfl, rfl, ?_⟩
  exact c10_explicit_target_overwrites_default (initState 2 2) (.list [.num 1]) [] [] (1, 1)
    { initState 2 2 with default_ax := (1, 1), legends := [(LegKey.axes (1, 1), some legend_defaults)] }
    { ax := (1, 1), x := .list [.num 1], args := [], kwargs := [],
        settings := [("linestyle", .str "-")] }
    rfl (.list [.num 2]) [] []
    { initState 2 2 with default_ax := (1, 1), legends := [(LegKey.axes (1, 1), some legend_defaults)] }
    { ax := (1, 1), x := .list [.num 2], args := [], kwargs := [],
        settings := [("linestyle", .str "-")] }
    rfl

end Ccfe
